import Mathlib

/-!
Shallow embedding of `contact_form/forms.py` from
django-contact-form-recaptcha: the `ContactForm` class (field validation,
context/subject/body rendering, message-dict construction, `save`) and the
`AkismetContactForm` subclass (spam-checked `clean_body`).

External collaborators (Django's form machinery that the class inherits,
the template engine, `get_current_site`, the email-syntax validator, the
Akismet client, `send_mail`) are modelled as opaque parameters gathered in
an `Env` record, or as explicit oracle functions; everything written in
`forms.py` itself is translated directly.

Python exceptions are modelled with `Except String`; the distinct message
strings keep the error kinds (`ValueError` state errors, transport errors,
`TypeError` at construction) apart.
-/

/-- Process-wide Django settings used by `forms.py`:
`settings.DEFAULT_FROM_EMAIL` and `settings.MANAGERS`
(a list of `(name, email)` pairs). -/
structure Settings where
  DEFAULT_FROM_EMAIL : String
  MANAGERS : List (String × String)
deriving Repr

/-- The request object, reduced to the parts `forms.py` reads:
`request.META['REMOTE_ADDR']` (always set by a WSGI server) and
`request.META.get('HTTP_USER_AGENT')` (may be absent). -/
structure Request where
  remoteAddr : String
  userAgent : Option String
deriving Repr, DecidableEq

/-- Raw submitted form data: `data.get(field_name)` for each of the six
declared fields; `none` models an absent key. -/
structure RawData where
  name : Option String
  last_name : Option String
  phone_number : Option String
  email : Option String
  title : Option String
  body : Option String
deriving Repr, DecidableEq

/-- The form's `cleaned_data` dict, one optional entry per declared field
(a field is present exactly when its cleaning succeeded). -/
structure CleanedData where
  name : Option String
  last_name : Option String
  phone_number : Option String
  email : Option String
  title : Option String
  body : Option String
deriving Repr, DecidableEq

/-- The form's `errors` mapping: for each field, its list of error
messages (empty list models the key being absent). -/
structure Errors where
  name : List String
  last_name : List String
  phone_number : List String
  email : List String
  title : List String
  body : List String
deriving Repr, DecidableEq

/-- The `errors` mapping is empty: no field has any error message. -/
def Errors.isEmpty (e : Errors) : Bool :=
  e.name.isEmpty && e.last_name.isEmpty && e.phone_number.isEmpty &&
  e.email.isEmpty && e.title.isEmpty && e.body.isEmpty

/-- An entirely empty `cleaned_data` (no field cleaned). -/
def CleanedData.empty : CleanedData :=
  ⟨none, none, none, none, none, none⟩

/-- An empty `errors` mapping. -/
def Errors.none : Errors :=
  ⟨[], [], [], [], [], []⟩

/-- External collaborators of `forms.py`, modelled as opaque functions:
the email-syntax validator backing `forms.EmailField`, the template
engine's `loader.render_to_string(template_name, context, request)`, and
`django.contrib.sites.shortcuts.get_current_site(request)` (reduced to
the site's name). -/
structure Env where
  emailValid : String → Bool
  renderToString : String → CleanedData × String → Request → String
  getCurrentSite : Request → String

/-- Modelled from Python's `str.strip`: whitespace removed from both
ends of the string. -/
def pyStrip (s : String) : String :=
  String.mk (((s.data.dropWhile Char.isWhitespace).reverse.dropWhile Char.isWhitespace).reverse)

/-- Modelled from Django's `CharField.clean` (an external collaborator):
`to_python` maps an absent value to the empty string and strips
whitespace, `validate` rejects an empty value when the field is required,
and the max-length validator rejects values longer than `max_length`. -/
def cleanCharField (required : Bool) (max_length : Option Nat)
    (raw : Option String) : Except String String :=
  let value := pyStrip (raw.getD "")
  if value = "" then
    if required then .error "This field is required." else .ok value
  else
    match max_length with
    | some m => if m < value.length then .error "Ensure this value has at most max_length characters." else .ok value
    | none => .ok value

/-- Modelled from Django's `EmailField.clean` (an external collaborator):
`CharField` cleaning followed by the email-syntax validator. -/
def cleanEmailField (emailValid : String → Bool) (required : Bool)
    (max_length : Option Nat) (raw : Option String) : Except String String :=
  match cleanCharField required max_length raw with
  | .error e => .error e
  | .ok value =>
      if value = "" then .ok value
      else if emailValid value then .ok value
      else .error "Enter a valid email address."

/-- Modelled from Django's `_clean_fields` bookkeeping: a successful field
clean puts the value into `cleaned_data`; a `ValidationError` puts the
message into `errors` and leaves the field out of `cleaned_data`. -/
def exceptToParts (r : Except String String) : Option String × List String :=
  match r with
  | .ok v => (some v, [])
  | .error e => (none, [e])

/-- Field cleaning for the six fields `ContactForm` declares
(`forms.py` lines 20-31): `name`, `last_name`, `phone_number` are
`CharField(max_length=100)`, `email` is `EmailField(max_length=200)`,
`title` is `CharField(max_length=200)`, `body` is a required `CharField`
with no length bound.  All fields are required (Django's default). -/
def ContactForm.cleanFields (env : Env) (d : RawData) : CleanedData × Errors :=
  let n := exceptToParts (cleanCharField true (some 100) d.name)
  let ln := exceptToParts (cleanCharField true (some 100) d.last_name)
  let ph := exceptToParts (cleanCharField true (some 100) d.phone_number)
  let em := exceptToParts (cleanEmailField env.emailValid true (some 200) d.email)
  let ti := exceptToParts (cleanCharField true (some 200) d.title)
  let bo := exceptToParts (cleanCharField true none d.body)
  (⟨n.1, ln.1, ph.1, em.1, ti.1, bo.1⟩, ⟨n.2, ln.2, ph.2, em.2, ti.2, bo.2⟩)

/-- A constructed `ContactForm` instance: the bound data (`none` models an
unbound form), the request, and the instance's `recipient_list`. -/
structure ContactForm where
  data : Option RawData
  request : Request
  recipient_list : List String
deriving Repr, DecidableEq

/-- The class attribute `recipient_list` (line 35):
`[mail_tuple[1] for mail_tuple in settings.MANAGERS]`. -/
def ContactForm.default_recipient_list (s : Settings) : List String :=
  s.MANAGERS.map (fun mail_tuple => mail_tuple.2)

/-- The class attribute `subject_template_name` (line 37). -/
def ContactForm.subject_template_name : String :=
  "contact_form/contact_form_subject.txt"

/-- The class attribute `template_name` (line 39). -/
def ContactForm.template_name : String :=
  "contact_form/contact_form.txt"

/-- The class attribute `from_email = settings.DEFAULT_FROM_EMAIL`
(line 33).  In the Python class namespace this binding is immediately
shadowed by the method `def from_email(self)` defined further down the
same class body, so it is dead: nothing in the class can reach it. -/
def ContactForm.from_email_attr (s : Settings) : String :=
  s.DEFAULT_FROM_EMAIL

/-- The constructor `ContactForm.__init__` (lines 41-49): raises
`TypeError` when `request` is `None`; stores the request; overrides the
instance's `recipient_list` when one is supplied, otherwise the class
default derived from `settings.MANAGERS` applies. -/
def ContactForm.init (s : Settings) (data : Option RawData)
    (request : Option Request) (recipient_list : Option (List String)) :
    Except String ContactForm :=
  match request with
  | none => .error "Keyword argument 'request' must be supplied"
  | some req =>
      .ok { data := data
            request := req
            recipient_list := recipient_list.getD (ContactForm.default_recipient_list s) }

/-- Modelled from Django's `Form.full_clean`: an unbound form gets an
empty `errors` mapping and empty `cleaned_data`; a bound form runs the
per-field cleaning. -/
def ContactForm.fullClean (env : Env) (f : ContactForm) : CleanedData × Errors :=
  match f.data with
  | none => (CleanedData.empty, Errors.none)
  | some d => ContactForm.cleanFields env d

/-- Modelled from Django's `Form.is_valid`: the form is bound and the
`errors` mapping is empty. -/
def ContactForm.is_valid (env : Env) (f : ContactForm) : Bool :=
  f.data.isSome && (ContactForm.fullClean env f).2.isEmpty

/-- The line-boundary characters of Python's `str.splitlines`. -/
def isLineBreak (c : Char) : Bool :=
  c = '\n' || c = '\r' || c = '\x0B' || c = '\x0C' ||
  c = '\x1C' || c = '\x1D' || c = '\x1E' ||
  c = '\u0085' || c = '\u2028' || c = '\u2029'

/-- Modelled from Python's `str.splitlines`: split at every line-boundary
character, with `"\r\n"` counting as a single boundary (the flag records
that the previous character was a carriage return, so its following
line feed is consumed silently); a trailing boundary produces no extra
empty line.  `acc` is the current line, reversed. -/
def splitlinesAux : List Char → List Char → Bool → List (List Char)
  | [], acc, _ => if acc = [] then [] else [acc.reverse]
  | c :: rest, acc, prevCR =>
      if prevCR ∧ c = '\n' then splitlinesAux rest acc false
      else if c = '\r' then acc.reverse :: splitlinesAux rest [] true
      else if isLineBreak c then acc.reverse :: splitlinesAux rest [] false
      else splitlinesAux rest (c :: acc) false

/-- The expression `''.join(subject.splitlines())` at line 81 of
`forms.py`: the string with its lines concatenated back without
separators. -/
def joinSplitlines (s : String) : String :=
  String.mk (splitlinesAux s.data [] false).flatten

/-- The method `get_context` (lines 83-104): raises
`ValueError("Cannot generate Context from invalid contact form")` unless
`is_valid()`, else returns `dict(self.cleaned_data,
site=get_current_site(self.request))`, modelled as the pair of the
cleaned data and the site name. -/
def ContactForm.get_context (env : Env) (f : ContactForm) :
    Except String (CleanedData × String) :=
  if ContactForm.is_valid env f then
    .ok ((ContactForm.fullClean env f).1, env.getCurrentSite f.request)
  else
    .error "Cannot generate Context from invalid contact form"

/-- The method `from_email` (lines 51-56):
`'"%s" <%s>' % (self.cleaned_data['name'], self.cleaned_data['email'])`.
In the class namespace this `def` shadows the earlier class attribute of
the same name, so `getattr(self, 'from_email')` yields this method.
Dict access on a missing key (Python `KeyError`) is modelled by `none`. -/
def ContactForm.from_email (cd : CleanedData) : Option String :=
  match cd.name, cd.email with
  | some n, some e => some ("\"" ++ n ++ "\" <" ++ e ++ ">")
  | _, _ => none

/-- The method `message` (lines 58-68): renders `template_name` (here the
configured string, the callable branch being dead for a string attribute)
against `get_context()` with the request. -/
def ContactForm.message (env : Env) (f : ContactForm) : Except String String := do
  let ctx ← ContactForm.get_context env f
  pure (env.renderToString ContactForm.template_name ctx f.request)

/-- The method `subject` (lines 70-81): renders `subject_template_name`
against `get_context()` and collapses the result with
`''.join(subject.splitlines())`. -/
def ContactForm.subject (env : Env) (f : ContactForm) : Except String String := do
  let ctx ← ContactForm.get_context env f
  pure (joinSplitlines (env.renderToString ContactForm.subject_template_name ctx f.request))

/-- The keyword arguments `get_message_dict` builds for `send_mail`. -/
structure MessageDict where
  from_email : String
  message : String
  recipient_list : List String
  subject : String
deriving Repr, DecidableEq

/-- The method `get_message_dict` (lines 106-131): raises
`ValueError("Message cannot be sent from invalid contact form")` unless
`is_valid()`, then collects `from_email`, `message`, `recipient_list`,
`subject`, calling each attribute that is callable (`from_email`,
`message` and `subject` are methods; `recipient_list` is a plain
attribute). -/
def ContactForm.get_message_dict (env : Env) (f : ContactForm) :
    Except String MessageDict :=
  if ContactForm.is_valid env f then
    match ContactForm.from_email (ContactForm.fullClean env f).1 with
    | none => .error "KeyError"
    | some fe => do
        let m ← ContactForm.message env f
        let s ← ContactForm.subject env f
        .ok { from_email := fe
              message := m
              recipient_list := f.recipient_list
              subject := s }
  else
    .error "Message cannot be sent from invalid contact form"

/-- Modelled from the spec: `django.core.mail.send_mail`, the external
mail-transport collaborator.  `smtpOutcome` is the underlying transport
outcome (`some e` a failure); per the documented contract,
`fail_silently=True` swallows the failure and `fail_silently=False`
propagates it. -/
def send_mail (fail_silently : Bool) (smtpOutcome : Option String)
    (_md : MessageDict) : Except String Unit :=
  match smtpOutcome with
  | none => .ok ()
  | some e => if fail_silently then .ok () else .error e

/-- The method `save` (lines 133-138):
`send_mail(fail_silently=fail_silently, **self.get_message_dict())` — the
message dict (and hence the validity check) is evaluated before the
transport call. -/
def ContactForm.save (env : Env) (f : ContactForm) (fail_silently : Bool)
    (smtpOutcome : Option String) : Except String Unit := do
  let md ← ContactForm.get_message_dict env f
  send_mail fail_silently smtpOutcome md

/-- The class attribute `AkismetContactForm.SPAM_MESSAGE`. -/
def AkismetContactForm.SPAM_MESSAGE : String :=
  "Your message was classified as spam."

/-- The keyword arguments `clean_body` passes to
`akismet_api.comment_check` (lines 160-167). -/
structure AkismetKwargs where
  user_ip : String
  user_agent : Option String
  comment_author : Option String
  comment_author_email : Option String
  comment_content : String
  comment_type : String
deriving Repr, DecidableEq

/-- The kwargs dict built inside `clean_body`: submitter network address
and client string from the request, author name/email via
`cleaned_data.get`, the body, and the fixed category tag. -/
def mkAkismetKwargs (req : Request) (cd : CleanedData) (b : String) :
    AkismetKwargs :=
  { user_ip := req.remoteAddr
    user_agent := req.userAgent
    comment_author := cd.name
    comment_author_email := cd.email
    comment_content := b
    comment_type := "contact-form" }

/-- The method `AkismetContactForm.clean_body` (lines 153-174): when
`'body' in self.cleaned_data`, build the kwargs and call the external
Akismet client (`oracle`); a true verdict raises
`ValidationError(SPAM_MESSAGE)`, a false verdict returns the cleaned body
unchanged; when the body is absent the method falls through to `None`
without calling the client.  The second component records the calls made
to the external classification capability. -/
def AkismetContactForm.clean_body (oracle : AkismetKwargs → Bool)
    (req : Request) (cd : CleanedData) :
    Except String (Option String) × List AkismetKwargs :=
  match cd.body with
  | some b =>
      let kw := mkAkismetKwargs req cd b
      if oracle kw then (.error AkismetContactForm.SPAM_MESSAGE, [kw])
      else (.ok (some b), [kw])
  | none => (.ok none, [])

/-- Modelled from Django's `_clean_fields` for `AkismetContactForm`: the
six declared fields are cleaned as in the base class (`body` is declared
last, so when its own cleaning succeeds the `clean_body` hook runs with
every other surviving field already in `cleaned_data`); if the hook
raises, `add_error` records the message under `body` and removes `body`
from `cleaned_data`, otherwise the hook's return value is stored.  When
the field's own cleaning fails the hook is skipped. -/
def AkismetContactForm.cleanFields (env : Env) (oracle : AkismetKwargs → Bool)
    (req : Request) (d : RawData) :
    CleanedData × Errors × List AkismetKwargs :=
  let base := ContactForm.cleanFields env d
  match base.1.body with
  | none => (base.1, base.2, [])
  | some _ =>
      let hook := AkismetContactForm.clean_body oracle req base.1
      match hook.1 with
      | .ok v => ({ base.1 with body := v }, base.2, hook.2)
      | .error e =>
          ({ base.1 with body := none },
           { base.2 with body := base.2.body ++ [e] }, hook.2)

/-- Per-field disjointness of `cleaned_data` and `errors`: a field with an
error message is absent from `cleaned_data`. -/
def FieldDisjoint (cd : CleanedData) (errs : Errors) : Prop :=
  (errs.name ≠ [] → cd.name = none) ∧
  (errs.last_name ≠ [] → cd.last_name = none) ∧
  (errs.phone_number ≠ [] → cd.phone_number = none) ∧
  (errs.email ≠ [] → cd.email = none) ∧
  (errs.title ≠ [] → cd.title = none) ∧
  (errs.body ≠ [] → cd.body = none)

/-- A concrete environment for the closed statements below: the email
validator accepts strings containing an at sign, the subject template
renders to a two-line string, the body template to a one-line string. -/
def envW : Env :=
  { emailValid := fun e => e.data.contains '@'
    renderToString := fun t _ _ =>
      if t = ContactForm.subject_template_name then "Hi\nthere" else "rendered body"
    getCurrentSite := fun _ => "example.com" }

/-- A concrete request. -/
def reqW : Request := { remoteAddr := "127.0.0.1", userAgent := some "TestAgent" }

/-- A concrete submission on which every field validates. -/
def dataW : RawData :=
  { name := some "Jane", last_name := some "Doe", phone_number := some "555-0100"
    email := some "jane@example.com", title := some "Hello", body := some "A message" }

/-- A concrete bound form over `dataW` with the recipient list derived
from `settingsW`. -/
def formW : ContactForm :=
  { data := some dataW, request := reqW, recipient_list := ["admin@example.com"] }

/-- A concrete unbound form (constructed with `data=None`). -/
def formUnbound : ContactForm :=
  { data := none, request := reqW, recipient_list := ["admin@example.com"] }

/-- A concrete submission whose email field is empty and hence fails the
required-field check, while every other field validates. -/
def dataBadEmail : RawData := { dataW with email := some "" }

/-- A concrete bound form over the invalid submission `dataBadEmail`. -/
def formInvalid : ContactForm :=
  { data := some dataBadEmail, request := reqW, recipient_list := ["admin@example.com"] }

/-- Concrete settings: a default sender address distinct from the
submitter's, and one manager. -/
def settingsW : Settings :=
  { DEFAULT_FROM_EMAIL := "webmaster@localhost"
    MANAGERS := [("Admin", "admin@example.com")] }

/-- The message dict `formW` produces under `envW`. -/
def mdW : MessageDict :=
  { from_email := "\"Jane\" <jane@example.com>"
    message := "rendered body"
    recipient_list := ["admin@example.com"]
    subject := "Hithere" }

/-- No character of the flattened `splitlines` output is a line-boundary
character, provided the accumulated line has none. -/
theorem splitlinesAux_no_linebreak : ∀ (cs acc : List Char) (prevCR : Bool),
    (∀ c ∈ acc, isLineBreak c = false) →
    ∀ c ∈ (splitlinesAux cs acc prevCR).flatten, isLineBreak c = false := by
  intro cs
  induction cs with
  | nil =>
      intro acc prevCR hacc c hc
      by_cases h : acc = ([] : List Char) <;>
        simp [splitlinesAux, h] at hc
      exact hacc c hc
  | cons a rest ih =>
      intro acc prevCR hacc c hc
      rw [splitlinesAux] at hc
      by_cases h1 : prevCR = true ∧ a = '\n'
      · rw [if_pos h1] at hc
        exact ih acc false hacc c hc
      · rw [if_neg h1] at hc
        by_cases h2 : a = '\r'
        · rw [if_pos h2] at hc
          simp only [List.flatten_cons, List.mem_append] at hc
          rcases hc with hc | hc
          · exact hacc c (List.mem_reverse.mp hc)
          · exact ih [] true (by simp) c hc
        · rw [if_neg h2] at hc
          by_cases h3 : isLineBreak a = true
          · rw [if_pos h3] at hc
            simp only [List.flatten_cons, List.mem_append] at hc
            rcases hc with hc | hc
            · exact hacc c (List.mem_reverse.mp hc)
            · exact ih [] false (by simp) c hc
          · rw [if_neg h3] at hc
            refine ih (a :: acc) false ?_ c hc
            intro x hx
            rcases List.mem_cons.mp hx with rfl | hx
            · simpa using h3
            · exact hacc x hx

/-- Joining the lines of any string yields a string without
line-boundary characters. -/
theorem joinSplitlines_no_linebreak (s : String) :
    ∀ c ∈ (joinSplitlines s).data, isLineBreak c = false := by
  intro c hc
  exact splitlinesAux_no_linebreak s.data [] false (by simp) c hc

/-- A field whose cleaning succeeded contributes no error message. -/
theorem cleanFields_body_errors_nil (env : Env) (d : RawData) (b : String)
    (hb : (ContactForm.cleanFields env d).1.body = some b) :
    (ContactForm.cleanFields env d).2.body = [] := by
  cases hr : cleanCharField true none d.body with
  | ok v => simp [ContactForm.cleanFields, exceptToParts, hr]
  | error e => simp [ContactForm.cleanFields, exceptToParts, hr] at hb

/-- On a valid form, the cleaned name and email are present. -/
theorem valid_name_email (env : Env) (f : ContactForm)
    (h : ContactForm.is_valid env f = true) :
    ∃ n e, (ContactForm.fullClean env f).1.name = some n ∧
      (ContactForm.fullClean env f).1.email = some e := by
  unfold ContactForm.is_valid at h
  rw [Bool.and_eq_true] at h
  obtain ⟨hb, he⟩ := h
  cases hd : f.data with
  | none => rw [hd] at hb; simp at hb
  | some d =>
      unfold ContactForm.fullClean at he ⊢
      rw [hd] at he ⊢
      cases hn : cleanCharField true (some 100) d.name with
      | error er =>
          exfalso
          rw [Errors.isEmpty] at he
          simp [ContactForm.cleanFields, exceptToParts, hn] at he
      | ok n =>
          cases hm : cleanEmailField env.emailValid true (some 200) d.email with
          | error er =>
              exfalso
              rw [Errors.isEmpty] at he
              simp [ContactForm.cleanFields, exceptToParts, hm] at he
          | ok e =>
              exact ⟨n, e, by simp [ContactForm.cleanFields, exceptToParts, hn],
                by simp [ContactForm.cleanFields, exceptToParts, hm]⟩

/-- On a valid form whose cleaned name and email are known,
`get_message_dict` succeeds and its entries are determined: the method
`from_email` supplies the sender string, the two templates supply body
and subject, and the instance's `recipient_list` is passed through. -/
theorem get_message_dict_eq_of_valid (env : Env) (f : ContactForm) (n e : String)
    (h : ContactForm.is_valid env f = true)
    (hn : (ContactForm.fullClean env f).1.name = some n)
    (he : (ContactForm.fullClean env f).1.email = some e) :
    ContactForm.get_message_dict env f = .ok
      { from_email := "\"" ++ n ++ "\" <" ++ e ++ ">"
        message := env.renderToString ContactForm.template_name
          ((ContactForm.fullClean env f).1, env.getCurrentSite f.request) f.request
        recipient_list := f.recipient_list
        subject := joinSplitlines (env.renderToString ContactForm.subject_template_name
          ((ContactForm.fullClean env f).1, env.getCurrentSite f.request) f.request) } := by
  simp [ContactForm.get_message_dict, h, ContactForm.from_email, hn, he,
    ContactForm.message, ContactForm.subject, ContactForm.get_context,
    Bind.bind, Except.bind, pure, Except.pure]

/-- On a valid form, `get_message_dict` succeeds. -/
theorem get_message_dict_ok_of_valid (env : Env) (f : ContactForm)
    (h : ContactForm.is_valid env f = true) :
    ∃ md, ContactForm.get_message_dict env f = .ok md := by
  obtain ⟨n, e, hn, he⟩ := valid_name_email env f h
  exact ⟨_, get_message_dict_eq_of_valid env f n e h hn he⟩

/-- The cleaned value and the error list of each base field come from the
same field-clean result, so a field never carries both. -/
theorem exceptToParts_disjoint (r : Except String String)
    (h : (exceptToParts r).2 ≠ []) : (exceptToParts r).1 = none := by
  cases r <;> simp [exceptToParts] at h ⊢

/-- Base field cleaning keeps cleaned values and errors per-field
disjoint. -/
theorem cleanFields_disjoint (env : Env) (d : RawData) :
    FieldDisjoint (ContactForm.cleanFields env d).1 (ContactForm.cleanFields env d).2 := by
  refine ⟨?_, ?_, ?_, ?_, ?_, ?_⟩ <;>
    · intro h
      simp only [ContactForm.cleanFields] at h ⊢
      exact exceptToParts_disjoint _ h

/-- Claim C1: for every composer instance whose validation has not
succeeded (unbound as well as invalid submissions), `get_context`,
`get_message_dict` and `save` all fail with the state error — and since
all three operations are pure here, this holds in every permutation of
call order. -/
theorem claim1_state_error_before_validation (env : Env) (f : ContactForm)
    (h : ContactForm.is_valid env f = false) :
    ContactForm.get_context env f =
      .error "Cannot generate Context from invalid contact form" ∧
    ContactForm.get_message_dict env f =
      .error "Message cannot be sent from invalid contact form" ∧
    ∀ (fail_silently : Bool) (smtpOutcome : Option String),
      ContactForm.save env f fail_silently smtpOutcome =
        .error "Message cannot be sent from invalid contact form" := by
  refine ⟨?_, ?_, ?_⟩ <;>
    simp [ContactForm.get_context, ContactForm.get_message_dict,
      ContactForm.save, h, Bind.bind, Except.bind]

/-- Witness for claim C1: the unbound form is not valid and every
operation fails with the state error. -/
theorem claim1_witness :
    ContactForm.is_valid envW formUnbound = false ∧
    ContactForm.get_context envW formUnbound =
      .error "Cannot generate Context from invalid contact form" ∧
    ContactForm.get_message_dict envW formUnbound =
      .error "Message cannot be sent from invalid contact form" ∧
    ContactForm.save envW formUnbound true none =
      .error "Message cannot be sent from invalid contact form" := by
  have h : ContactForm.is_valid envW formUnbound = false := by decide
  have H := claim1_state_error_before_validation envW formUnbound h
  exact ⟨h, H.1, H.2.1, H.2.2 true none⟩

/-- Claim C2 (as stated, refuted): the message descriptor does not use
the configured system address — in the class namespace the `from_email`
method shadows the `from_email = settings.DEFAULT_FROM_EMAIL` class
attribute, so the descriptor hands the submitter pair to the transport
call as its sender. -/
theorem claim2_counterexample :
    ContactForm.init settingsW (some dataW) (some reqW) none = .ok formW ∧
    ContactForm.get_message_dict envW formW = .ok mdW ∧
    mdW.from_email ≠ ContactForm.from_email_attr settingsW := by
  refine ⟨by rfl, by rfl, by decide⟩

/-- Claim C2 (amended): for every successfully validated submission, the
message descriptor's `from_email` entry is the display-name+address pair
built from the submitter's cleaned name and email (the shadowed
configured default sender is never consulted), while the recipient list
and the two rendered texts fill the other entries. -/
theorem claim2_from_email_is_submitter_pair (env : Env) (f : ContactForm) (n e : String)
    (h : ContactForm.is_valid env f = true)
    (hn : (ContactForm.fullClean env f).1.name = some n)
    (he : (ContactForm.fullClean env f).1.email = some e) :
    ContactForm.get_message_dict env f = .ok
      { from_email := "\"" ++ n ++ "\" <" ++ e ++ ">"
        message := env.renderToString ContactForm.template_name
          ((ContactForm.fullClean env f).1, env.getCurrentSite f.request) f.request
        recipient_list := f.recipient_list
        subject := joinSplitlines (env.renderToString ContactForm.subject_template_name
          ((ContactForm.fullClean env f).1, env.getCurrentSite f.request) f.request) } :=
  get_message_dict_eq_of_valid env f n e h hn he

/-- Witness for claim C2: a concrete valid submission whose descriptor
carries the submitter pair as sender. -/
theorem claim2_witness :
    ContactForm.is_valid envW formW = true ∧
    ContactForm.get_message_dict envW formW = .ok
      { from_email := "\"Jane\" <jane@example.com>"
        message := "rendered body"
        recipient_list := ["admin@example.com"]
        subject := "Hithere" } := by
  have h : ContactForm.is_valid envW formW = true := by decide
  have H := claim2_from_email_is_submitter_pair envW formW "Jane" "jane@example.com" h
    (by rfl) (by rfl)
  exact ⟨h, H⟩

/-- Claim C3: whenever subject rendering succeeds, the resulting string
contains no line-break character, whatever the subject template's output
was. -/
theorem claim3_subject_single_line (env : Env) (f : ContactForm) (s : String)
    (h : ContactForm.subject env f = .ok s) :
    ∀ c ∈ s.data, isLineBreak c = false := by
  unfold ContactForm.subject at h
  cases hctx : ContactForm.get_context env f with
  | error e => rw [hctx] at h; simp [Bind.bind, Except.bind] at h
  | ok ctx =>
      rw [hctx] at h
      simp only [Bind.bind, Except.bind, pure, Except.pure, Except.ok.injEq] at h
      subst h
      exact joinSplitlines_no_linebreak _

/-- Witness for claim C3: under `envW` the subject template renders to a
two-line string and the rendered subject is its single-line collapse. -/
theorem claim3_witness :
    ContactForm.subject envW formW = .ok "Hithere" ∧
    ∀ c ∈ ("Hithere" : String).data, isLineBreak c = false := by
  have h : ContactForm.subject envW formW = .ok "Hithere" := by rfl
  exact ⟨h, claim3_subject_single_line envW formW "Hithere" h⟩

/-- Claim C4: in the spam-checked variant, when the body passed its own
syntactic cleaning, a true classification verdict rejects the body field
with exactly the fixed `SPAM_MESSAGE` and removes it from the cleaned
data, a false verdict leaves the cleaned body and the error mapping
unchanged, and the classification capability is called only when the
body passed its syntactic validation. -/
theorem claim4_spam_classification (env : Env) (oracle : AkismetKwargs → Bool)
    (req : Request) (d : RawData) :
    (∀ b, (ContactForm.cleanFields env d).1.body = some b →
      (oracle (mkAkismetKwargs req (ContactForm.cleanFields env d).1 b) = true →
        (AkismetContactForm.cleanFields env oracle req d).1.body = none ∧
        (AkismetContactForm.cleanFields env oracle req d).2.1.body =
          [AkismetContactForm.SPAM_MESSAGE]) ∧
      (oracle (mkAkismetKwargs req (ContactForm.cleanFields env d).1 b) = false →
        (AkismetContactForm.cleanFields env oracle req d).1.body = some b ∧
        (AkismetContactForm.cleanFields env oracle req d).2.1 =
          (ContactForm.cleanFields env d).2)) ∧
    ((AkismetContactForm.cleanFields env oracle req d).2.2 ≠ [] →
      (ContactForm.cleanFields env d).1.body ≠ none) := by
  constructor
  · intro b hb
    have hnil := cleanFields_body_errors_nil env d b hb
    constructor
    · intro ho
      simp [AkismetContactForm.cleanFields, hb, AkismetContactForm.clean_body, ho, hnil]
    · intro ho
      simp [AkismetContactForm.cleanFields, hb, AkismetContactForm.clean_body, ho]
  · intro hcalls hnone
    simp [AkismetContactForm.cleanFields, hnone] at hcalls

/-- Witness for claim C4: with a concrete submission, an always-spam
oracle rejects the body with the fixed message and an always-ham oracle
leaves it unchanged. -/
theorem claim4_witness :
    (ContactForm.cleanFields envW dataW).1.body = some "A message" ∧
    (AkismetContactForm.cleanFields envW (fun _ => true) reqW dataW).1.body = none ∧
    (AkismetContactForm.cleanFields envW (fun _ => true) reqW dataW).2.1.body =
      [AkismetContactForm.SPAM_MESSAGE] ∧
    (AkismetContactForm.cleanFields envW (fun _ => false) reqW dataW).1.body =
      some "A message" ∧
    (AkismetContactForm.cleanFields envW (fun _ => false) reqW dataW).2.1 =
      (ContactForm.cleanFields envW dataW).2 := by
  have hb : (ContactForm.cleanFields envW dataW).1.body = some "A message" := by rfl
  have Ht := ((claim4_spam_classification envW (fun _ => true) reqW dataW).1
    "A message" hb).1 (by rfl)
  have Hf := ((claim4_spam_classification envW (fun _ => false) reqW dataW).1
    "A message" hb).2 (by rfl)
  exact ⟨hb, Ht.1, Ht.2, Hf.1, Hf.2⟩

/-- Claim C5 (as stated, refuted): a submission with a valid name but an
empty email yields a state carrying cleaned values and field errors at
once, so the validation result is not exclusively one or the other. -/
theorem claim5_counterexample :
    ¬ ((ContactForm.cleanFields envW dataBadEmail).1 = CleanedData.empty ∨
       (ContactForm.cleanFields envW dataBadEmail).2.isEmpty = true) := by
  decide

/-- Claim C5 (amended): cleaned values and field errors are disjoint per
field — no field ever appears in both at once — in the base form and in
the spam-checked variant alike; but a partially valid submission does
expose cleaned values of passing fields alongside the errors of failing
ones. -/
theorem claim5_amended_disjoint (env : Env) (oracle : AkismetKwargs → Bool)
    (req : Request) (d : RawData) :
    FieldDisjoint (ContactForm.cleanFields env d).1 (ContactForm.cleanFields env d).2 ∧
    FieldDisjoint (AkismetContactForm.cleanFields env oracle req d).1
      (AkismetContactForm.cleanFields env oracle req d).2.1 := by
  have hbase := cleanFields_disjoint env d
  refine ⟨hbase, ?_⟩
  obtain ⟨h1, h2, h3, h4, h5, h6⟩ := hbase
  cases hb : (ContactForm.cleanFields env d).1.body with
  | none =>
      simp only [AkismetContactForm.cleanFields, hb]
      exact ⟨h1, h2, h3, h4, h5, h6⟩
  | some b =>
      have hnil := cleanFields_body_errors_nil env d b hb
      cases ho : oracle (mkAkismetKwargs req (ContactForm.cleanFields env d).1 b) with
      | true =>
          simp only [AkismetContactForm.cleanFields, hb, AkismetContactForm.clean_body, ho,
            if_true]
          exact ⟨h1, h2, h3, h4, h5, fun _ => rfl⟩
      | false =>
          simp only [AkismetContactForm.cleanFields, hb, AkismetContactForm.clean_body, ho,
            if_false]
          refine ⟨h1, h2, h3, h4, h5, ?_⟩
          intro hcontra
          exact absurd hnil hcontra

/-- Witness for claim C5: on the partially valid submission the email
field has an error and is absent from the cleaned values. -/
theorem claim5_witness :
    (ContactForm.cleanFields envW dataBadEmail).2.email ≠ [] ∧
    (ContactForm.cleanFields envW dataBadEmail).1.email = none := by
  have h : (ContactForm.cleanFields envW dataBadEmail).2.email ≠ [] := by decide
  exact ⟨h,
    (claim5_amended_disjoint envW (fun _ => false) reqW dataBadEmail).1.2.2.2.1 h⟩

/-- Claim C6: on a successfully validated form, `save` with
`fail_silently=True` never fails even when the transport fails, and with
`fail_silently=False` every transport failure propagates. -/
theorem claim6_dispatch_error_suppression (env : Env) (f : ContactForm)
    (h : ContactForm.is_valid env f = true) :
    (∀ smtpOutcome, ContactForm.save env f true smtpOutcome = .ok ()) ∧
    (∀ e, ContactForm.save env f false (some e) = .error e) := by
  obtain ⟨md, hmd⟩ := get_message_dict_ok_of_valid env f h
  constructor
  · intro oc
    cases oc <;> simp [ContactForm.save, hmd, Bind.bind, Except.bind, send_mail]
  · intro e
    simp [ContactForm.save, hmd, Bind.bind, Except.bind, send_mail]

/-- Witness for claim C6: on the concrete valid form a failing transport
is swallowed with the flag set and propagates without it. -/
theorem claim6_witness :
    ContactForm.is_valid envW formW = true ∧
    ContactForm.save envW formW true (some "transport down") = .ok () ∧
    ContactForm.save envW formW false (some "transport down") = .error "transport down" := by
  have h : ContactForm.is_valid envW formW = true := by decide
  have H := claim6_dispatch_error_suppression envW formW h
  exact ⟨h, H.1 (some "transport down"), H.2 "transport down"⟩

/-- Claim C7: on every successfully validated submission with cleaned
name "Jane" and email "jane@example.com", the `from_email` method
returns a string containing both. -/
theorem claim7_sender_contains_name_and_email (env : Env) (f : ContactForm)
    (h : ContactForm.is_valid env f = true)
    (hn : (ContactForm.fullClean env f).1.name = some "Jane")
    (he : (ContactForm.fullClean env f).1.email = some "jane@example.com") :
    ContactForm.from_email (ContactForm.fullClean env f).1 =
      some "\"Jane\" <jane@example.com>" ∧
    List.IsInfix "Jane".data ("\"Jane\" <jane@example.com>" : String).data ∧
    List.IsInfix "jane@example.com".data ("\"Jane\" <jane@example.com>" : String).data := by
  refine ⟨?_, by decide, by decide⟩
  simp [ContactForm.from_email, hn, he]

/-- Witness for claim C7: the concrete valid Jane submission. -/
theorem claim7_witness :
    ContactForm.is_valid envW formW = true ∧
    ContactForm.from_email (ContactForm.fullClean envW formW).1 =
      some "\"Jane\" <jane@example.com>" := by
  have h : ContactForm.is_valid envW formW = true := by decide
  have H := claim7_sender_contains_name_and_email envW formW h (by rfl) (by rfl)
  exact ⟨h, H.1⟩

/-- Claim C8: a supplied recipient-list override becomes the instance's
recipient list, otherwise the default derived from `settings.MANAGERS`
applies, and whatever `get_message_dict` returns carries exactly the
instance's recipient list. -/
theorem claim8_recipient_list_override (s : Settings) (data : Option RawData)
    (req : Request) :
    (∀ rl, ContactForm.init s data (some req) (some rl) =
      .ok { data := data, request := req, recipient_list := rl }) ∧
    (ContactForm.init s data (some req) none =
      .ok { data := data, request := req,
            recipient_list := ContactForm.default_recipient_list s }) ∧
    (∀ (env : Env) (f : ContactForm) (md : MessageDict),
      ContactForm.get_message_dict env f = .ok md →
      md.recipient_list = f.recipient_list) := by
  refine ⟨fun rl => rfl, rfl, ?_⟩
  intro env f md h
  unfold ContactForm.get_message_dict at h
  by_cases hv : ContactForm.is_valid env f
  · rw [if_pos hv] at h
    cases hfe : ContactForm.from_email (ContactForm.fullClean env f).1 with
    | none => rw [hfe] at h; cases h
    | some fe =>
        rw [hfe] at h
        cases hm : ContactForm.message env f with
        | error e =>
            rw [hm] at h
            simp [Bind.bind, Except.bind] at h
        | ok m =>
            rw [hm] at h
            cases hs : ContactForm.subject env f with
            | error e =>
                rw [hs] at h
                simp [Bind.bind, Except.bind] at h
            | ok sub =>
                rw [hs] at h
                simp only [Bind.bind, Except.bind, Except.ok.injEq] at h
                rw [← h]
  · rw [if_neg hv] at h
    cases h

/-- Witness for claim C8: concrete constructions with and without an
override, and the concrete message dict passing the list through. -/
theorem claim8_witness :
    ContactForm.init settingsW (some dataW) (some reqW)
        (some ["override@example.org"]) =
      .ok { data := some dataW, request := reqW,
            recipient_list := ["override@example.org"] } ∧
    ContactForm.init settingsW (some dataW) (some reqW) none =
      .ok { data := some dataW, request := reqW,
            recipient_list := ["admin@example.com"] } ∧
    mdW.recipient_list = formW.recipient_list := by
  have H := claim8_recipient_list_override settingsW (some dataW) reqW
  exact ⟨H.1 ["override@example.org"], H.2.1, H.2.2 envW formW mdW (by rfl)⟩

/-- Claim C9: constructing a form without a request fails with the
configuration error, whatever the other arguments are. -/
theorem claim9_init_requires_request (s : Settings) (data : Option RawData)
    (recipient_list : Option (List String)) :
    ContactForm.init s data none recipient_list =
      .error "Keyword argument 'request' must be supplied" := rfl

/-- Claim C10: the suppression flag of `save` suppresses only transport
failures — on a form whose validation has not succeeded,
`save(fail_silently=True)` still fails with the state error, because the
message dict (and with it the validity check) is built before the
transport call. -/
theorem claim10_fail_silently_does_not_mask_state_error (env : Env) (f : ContactForm)
    (h : ContactForm.is_valid env f = false) (smtpOutcome : Option String) :
    ContactForm.save env f true smtpOutcome =
      .error "Message cannot be sent from invalid contact form" := by
  simp [ContactForm.save, ContactForm.get_message_dict, h, Bind.bind, Except.bind]

/-- Witness for claim C10: on the concrete invalid bound form, `save`
with the flag set still fails with the state error. -/
theorem claim10_witness :
    ContactForm.is_valid envW formInvalid = false ∧
    ContactForm.save envW formInvalid true (some "late transport failure") =
      .error "Message cannot be sent from invalid contact form" := by
  have h : ContactForm.is_valid envW formInvalid = false := by decide
  exact ⟨h, claim10_fail_silently_does_not_mask_state_error envW formInvalid h
    (some "late transport failure")⟩
